import Mathlib

/-!
Shallow embedding of the PulsePoint feedback-analysis worker
(`src/index.ts`): the workflow steps (categorize, sentiment, persist),
the HTTP fetch handler (ingest endpoint and dashboard endpoint), and the
HTML-escaping helper `esc`.  Machine floats are modelled as rationals;
JSON values as an inductive type; the D1 feedback table as a list of rows.
-/

namespace PulsePoint

/-- ECMAScript WhiteSpace and LineTerminator code points, the characters
stripped by `String.prototype.trim`. -/
def jsWhitespace (c : Char) : Bool :=
  c = ' ' ∨ c = '\t' ∨ c = '\n' ∨ c = '\r' ∨
  c = Char.ofNat 0xB ∨ c = Char.ofNat 0xC ∨ c = Char.ofNat 0xA0 ∨
  c = Char.ofNat 0x1680 ∨ (0x2000 ≤ c.toNat ∧ c.toNat ≤ 0x200A) ∨
  c = Char.ofNat 0x2028 ∨ c = Char.ofNat 0x2029 ∨ c = Char.ofNat 0x202F ∨
  c = Char.ofNat 0x205F ∨ c = Char.ofNat 0x3000 ∨ c = Char.ofNat 0xFEFF

/-- Models `String.prototype.trim`: strip leading and trailing whitespace. -/
def jsTrim (s : String) : String :=
  String.mk (((s.data.dropWhile jsWhitespace).reverse.dropWhile jsWhitespace).reverse)

/-- The closed category list, `const valid = ["Bugs", "Feature Requests", "Billing"]`
from the categorize step. -/
def valid : List String := ["Bugs", "Feature Requests", "Billing"]

/-- The categorize step (src/index.ts lines 19-33) after the AI call:
`const raw = (res as { response?: string }).response?.trim() ?? "Bugs";
 return valid.includes(raw) ? raw : "Bugs";`
The classifier response is `Option String` (`none` models an absent
`response` field). -/
def categorize (response : Option String) : String :=
  let raw := (response.map jsTrim).getD "Bugs"
  if valid.contains raw then raw else "Bugs"

/-- One `{label, score}` pair returned by the sentiment backend. -/
structure LabelScore where
  label : String
  score : ℚ
deriving DecidableEq, Repr

/-- Shapes the sentiment backend may answer with: a bare JSON array of
`{label, score}` pairs, or such a list nested under a `result` wrapper
object (for which `Array.isArray` is `false`). -/
inductive SentResponse where
  | list (entries : List LabelScore)
  | wrapped (entries : List LabelScore)
deriving DecidableEq, Repr

/-- The sentiment step (src/index.ts lines 35-46) after the AI call:
`const scores = Array.isArray(res) ? res : [];
 const positive = scores.find((r) => r.label === "POSITIVE");
 return positive ? positive.score : 0.5;` -/
def deriveSentiment (res : SentResponse) : ℚ :=
  let scores := match res with
    | SentResponse.list entries => entries
    | SentResponse.wrapped _ => []
  match scores.find? (fun r => r.label == "POSITIVE") with
  | some positive => positive.score
  | none => 1/2

/-- A row of the `feedback` table (migrations/0001_create_feedback.sql):
every column is `NOT NULL`; `id` is auto-assigned, `created_at` is
store-assigned.  `REAL sentiment` is modelled as a rational. -/
structure Record where
  id : Nat
  raw_text : String
  category : String
  sentiment : ℚ
  created_at : String
deriving DecidableEq, Repr

/-- The record produced by a pipeline run before the store assigns `id` and
`created_at`: the three bind parameters of
`INSERT INTO feedback (raw_text, category, sentiment) VALUES (?, ?, ?)`. -/
structure PendingRecord where
  raw_text : String
  category : String
  sentiment : ℚ
deriving DecidableEq, Repr

/-- The list of label/score entries carried by either response shape; used
to state the backend contract that scores are probabilities in the unit
interval. -/
def sentEntries : SentResponse → List LabelScore
  | SentResponse.list entries => entries
  | SentResponse.wrapped entries => entries

/-- The whole workflow run (src/index.ts lines 16-55) as a function of the
backend responses: categorize `text`, derive the sentiment, and produce the
row to persist.  `step.do` memoization and retry are orthogonal to the
values computed and are not modelled. -/
def pipelineRun (classResp : Option String) (sentResp : SentResponse)
    (text : String) : PendingRecord :=
  { raw_text := text, category := categorize classResp,
    sentiment := deriveSentiment sentResp }

/-- AUTOINCREMENT: the store assigns a fresh id strictly larger than any
existing id. -/
def nextId (db : List Record) : Nat :=
  (db.map Record.id).foldr max 0 + 1

/-- The persist step as seen by the store: one atomic append of a fully
populated row, with `id` and `created_at` store-assigned. -/
def persist (db : List Record) (ts : String) (p : PendingRecord) : List Record :=
  db ++ [{ id := nextId db, raw_text := p.raw_text, category := p.category,
           sentiment := p.sentiment, created_at := ts }]

/-- Priority tiers of the triage logic. -/
inductive Tier where
  | CRITICAL
  | HIGH
  | MEDIUM
  | LOW
deriving DecidableEq, Repr

/-- The per-row tier logic of the dashboard (src/index.ts lines 91-100):
`isCritical = (category === "Bugs" || category === "Billing") && sentiment < 0.4;
 isHigh = !isCritical && (category === "Bugs" || category === "Billing");
 isMedium = category === "Feature Requests" && sentiment < 0.3;`
followed by the if/else chain choosing the priority. -/
def triage (category : String) (sentiment : ℚ) : Tier :=
  if (category = "Bugs" ∨ category = "Billing") ∧ sentiment < 2/5 then
    Tier.CRITICAL
  else if (category = "Bugs" ∨ category = "Billing") then
    Tier.HIGH
  else if category = "Feature Requests" ∧ sentiment < 3/10 then
    Tier.MEDIUM
  else
    Tier.LOW

/-- The priority string rendered for a tier. -/
def tierLabel : Tier → String
  | Tier.CRITICAL => "CRITICAL"
  | Tier.HIGH => "HIGH"
  | Tier.MEDIUM => "MEDIUM"
  | Tier.LOW => "LOW"

/-- The badge CSS class rendered for a tier. -/
def tierBadge : Tier → String
  | Tier.CRITICAL => "badge-critical"
  | Tier.HIGH => "badge-high"
  | Tier.MEDIUM => "badge-medium"
  | Tier.LOW => "badge-low"

/-- Summary counter `const total = results.length;`. -/
def total (results : List Record) : Nat := results.length

/-- Summary counter `const urgent = results.filter(r => r.sentiment < 0.3).length;`
(the "Critical Incidents" tile). -/
def urgent (results : List Record) : Nat :=
  (results.filter (fun r => r.sentiment < 3/10)).length

/-- Summary counter `const bugs = results.filter(r => r.category === "Bugs").length;`. -/
def bugsCount (results : List Record) : Nat :=
  (results.filter (fun r => r.category == "Bugs")).length

/-- One pass of `String.prototype.replace` with a global single-character
pattern: every occurrence of `t` is replaced by `rep`. -/
def replaceChar (t : Char) (rep : List Char) : List Char → List Char
  | [] => []
  | c :: cs => (if c = t then rep else [c]) ++ replaceChar t rep cs

/-- The body of `esc` (src/index.ts line 160):
`s.replace(/&/g, "&amp;").replace(/</g, "&lt;").replace(/>/g, "&gt;").replace(/"/g, "&quot;")`. -/
def escList (s : List Char) : List Char :=
  replaceChar '"' ['&', 'q', 'u', 'o', 't', ';']
    (replaceChar '>' ['&', 'g', 't', ';']
      (replaceChar '<' ['&', 'l', 't', ';']
        (replaceChar '&' ['&', 'a', 'm', 'p', ';'] s)))

/-- The combined per-character effect of the four chained replacements of
`esc`; proof artifact relating `escList` to a single pass. -/
def escChar (c : Char) : List Char :=
  if c = '&' then ['&', 'a', 'm', 'p', ';']
  else if c = '<' then ['&', 'l', 't', ';']
  else if c = '>' then ['&', 'g', 't', ';']
  else if c = '"' then ['&', 'q', 'u', 'o', 't', ';']
  else [c]

/-- The HTML-escaping helper (src/index.ts lines 158-161):
`if (!s) return ""; return s.replace(...)...;` — for a string argument the
only falsy value is the empty string. -/
def esc (s : String) : String :=
  if s = "" then "" else String.mk (escList s.data)

/-- The cells of one rendered dashboard row (src/index.ts lines 90-111).
The numeric `sentiment.toFixed(2)` cell is float formatting and is not
modelled; every other interpolated value is. -/
structure RenderedRow where
  rowClass : String
  idCell : Nat
  textCell : String
  categoryCell : String
  priorityCell : String
  badgeCell : String
  timeCell : String
deriving DecidableEq, Repr

/-- One iteration of `results.map((r) => ...)` building a table row
(src/index.ts lines 90-111): the `isCritical` / `isHigh` / `isMedium`
booleans, the priority/badge if/else chain, the `urgent-row` class, and the
`esc`-wrapped interpolations. -/
def renderRow (r : Record) : RenderedRow :=
  if (r.category = "Bugs" ∨ r.category = "Billing") ∧ r.sentiment < 2/5 then
    { rowClass := "urgent-row", idCell := r.id, textCell := esc r.raw_text,
      categoryCell := esc r.category, priorityCell := "CRITICAL",
      badgeCell := "badge-critical", timeCell := esc r.created_at }
  else if (r.category = "Bugs" ∨ r.category = "Billing") then
    { rowClass := "", idCell := r.id, textCell := esc r.raw_text,
      categoryCell := esc r.category, priorityCell := "HIGH",
      badgeCell := "badge-high", timeCell := esc r.created_at }
  else if r.category = "Feature Requests" ∧ r.sentiment < 3/10 then
    { rowClass := "", idCell := r.id, textCell := esc r.raw_text,
      categoryCell := esc r.category, priorityCell := "MEDIUM",
      badgeCell := "badge-medium", timeCell := esc r.created_at }
  else
    { rowClass := "", idCell := r.id, textCell := esc r.raw_text,
      categoryCell := esc r.category, priorityCell := "LOW",
      badgeCell := "badge-low", timeCell := esc r.created_at }

/-- The display structure of the dashboard page: the three summary tiles
and the table rows, in query order. -/
structure DashView where
  totalTile : Nat
  urgentTile : Nat
  bugsTile : Nat
  rows : List RenderedRow
deriving DecidableEq, Repr

/-- Builds the dashboard view from the query results
(src/index.ts lines 85-113 and 144-149). -/
def renderDash (results : List Record) : DashView :=
  { totalTile := total results, urgentTile := urgent results,
    bugsTile := bugsCount results, rows := results.map renderRow }

/-- The dashboard query
`SELECT id, raw_text, category, sentiment, created_at FROM feedback
 ORDER BY id DESC LIMIT 50`
over the table state: sort by `id` descending, keep the first 50 rows. -/
def dashboardQuery (db : List Record) : List Record :=
  (db.mergeSort (fun a b => decide (b.id ≤ a.id))).take 50

/-- The `GET /` branch of the fetch handler (src/index.ts lines 80-152) as a
state transformer on the feedback table: it runs only the SELECT above, so
the resulting table state is returned unchanged next to the view. -/
def dashboardGet (db : List Record) : List Record × DashView :=
  (db, renderDash (dashboardQuery db))

/-- Modelled from the spec (section 4.2): the Triage Engine decision table,
rows evaluated in order, first match wins.  Used only to compare the
implemented tier logic against the spec text. -/
def specTriage (category : String) (sentiment : ℚ) : Tier :=
  if (category = "Bugs" ∨ category = "Billing") ∧ sentiment < 2/5 then
    Tier.CRITICAL
  else if (category = "Bugs" ∨ category = "Billing") ∧ 2/5 ≤ sentiment then
    Tier.HIGH
  else if category = "Feature Requests" ∧ sentiment < 3/10 then
    Tier.MEDIUM
  else
    Tier.LOW

/-- A parsed JSON value (the result of `request.json()`; numbers are
modelled as rationals). -/
inductive JSValue where
  | null
  | bool (b : Bool)
  | num (q : ℚ)
  | str (s : String)
  | arr (elems : List JSValue)
  | obj (fields : List (String × JSValue))

/-- JavaScript property access `v.text`: throws a `TypeError` on `null`
(`Except.error`), yields the field on objects, and `undefined` (`none`) on
any other value or a missing field. -/
def getField (v : JSValue) (key : String) : Except Unit (Option JSValue) :=
  match v with
  | JSValue.null => Except.error ()
  | JSValue.obj fields =>
      Except.ok ((fields.find? (fun f => f.1 == key)).map Prod.snd)
  | _ => Except.ok none

/-- JavaScript truthiness of a possibly-undefined value, for `!body.text`. -/
def jsTruthy : Option JSValue → Bool
  | none => false
  | some JSValue.null => false
  | some (JSValue.bool b) => b
  | some (JSValue.num q) => decide (q ≠ 0)
  | some (JSValue.str s) => decide (s ≠ "")
  | some (JSValue.arr _) => true
  | some (JSValue.obj _) => true

/-- Outcome of the `POST /api/feedback` branch (src/index.ts lines 65-77):
the two 400 responses, the 202 acceptance (recording the exact text handed
to `WORKFLOW.create`), or an exception escaping the handler. -/
inductive IngestResponse where
  | invalidJSON
  | missingText
  | accepted (text : String)
  | thrown
deriving DecidableEq, Repr

/-- The ingest branch of the fetch handler.  The argument is the result of
`request.json()`: `none` when the body is not parseable (caught, 400
"Invalid JSON"); otherwise the handler evaluates
`if (!body.text || typeof body.text !== "string")` — where the property
access `body.text` itself can throw outside the try/catch — then calls
`WORKFLOW.create({ params: { text: body.text } })` and answers 202. -/
def ingest (parsed : Option JSValue) : IngestResponse :=
  match parsed with
  | none => IngestResponse.invalidJSON
  | some body =>
    match getField body "text" with
    | Except.error _ => IngestResponse.thrown
    | Except.ok field =>
      if !(jsTruthy field) then IngestResponse.missingText
      else
        match field with
        | some (JSValue.str s) => IngestResponse.accepted s
        | _ => IngestResponse.missingText

/-- Checks that an escaped character list is safe HTML text: no raw `<`,
`>` or `"` anywhere, and every `&` immediately followed by one of the four
emitted entity tails (`amp;`, `lt;`, `gt;`, `quot;`). -/
def wellEscaped : List Char → Bool
  | [] => true
  | c :: cs =>
    if c = '<' ∨ c = '>' ∨ c = '"' then false
    else if c = '&' then
      match cs with
      | 'a' :: 'm' :: 'p' :: ';' :: rest => wellEscaped rest
      | 'l' :: 't' :: ';' :: rest => wellEscaped rest
      | 'g' :: 't' :: ';' :: rest => wellEscaped rest
      | 'q' :: 'u' :: 'o' :: 't' :: ';' :: rest => wellEscaped rest
      | _ => false
    else wellEscaped cs

/-- Helper: the categorize step always lands in the closed category set. -/
theorem categorize_mem_valid (resp : Option String) : categorize resp ∈ valid := by
  cases resp with
  | none => decide
  | some s =>
    by_cases h : jsTrim s ∈ valid
    · simp [categorize, h]
    · have hb : categorize (some s) = "Bugs" := by simp [categorize, h]
      rw [hb]; decide

/-- Helper: under the backend contract that every returned score lies in
the unit interval, the derived sentiment lies in the unit interval. -/
theorem deriveSentiment_mem_unit (sentResp : SentResponse)
    (h : ∀ e ∈ sentEntries sentResp, 0 ≤ e.score ∧ e.score ≤ 1) :
    0 ≤ deriveSentiment sentResp ∧ deriveSentiment sentResp ≤ 1 := by
  cases sentResp with
  | wrapped es =>
    have hv : deriveSentiment (SentResponse.wrapped es) = 1/2 := rfl
    rw [hv]; constructor <;> norm_num
  | list es =>
    rcases hf : es.find? (fun r => r.label == "POSITIVE") with _ | p
    · have hv : deriveSentiment (SentResponse.list es) = 1/2 := by
        simp [deriveSentiment, hf]
      rw [hv]; constructor <;> norm_num
    · have hp : p ∈ es := List.mem_of_find?_eq_some hf
      have hb := h p (by simpa [sentEntries] using hp)
      have hv : deriveSentiment (SentResponse.list es) = p.score := by
        simp [deriveSentiment, hf]
      rw [hv]; exact hb

/-- Claim C2: for every raw classifier output, the categorize step trims
whitespace and substitutes Bugs when the trimmed value is not in the closed
category set (including the empty string and an absent response), keeps it
unchanged when it is, and hence always yields a member of the closed set. -/
theorem categorize_normalizes (resp : Option String) :
    categorize resp ∈ valid ∧
    (∀ s, resp = some s →
      (jsTrim s ∈ valid → categorize resp = jsTrim s) ∧
      (jsTrim s ∉ valid → categorize resp = "Bugs")) ∧
    (resp = none → categorize resp = "Bugs") := by
  refine ⟨categorize_mem_valid resp, ?_, ?_⟩
  · rintro s rfl
    exact ⟨fun h => by simp [categorize, h], fun h => by simp [categorize, h]⟩
  · rintro rfl
    decide

/-- Witness for C2 at concrete inputs: an output outside the set is coerced
to Bugs, a padded valid label is trimmed and kept. -/
theorem categorize_normalizes_witness :
    categorize (some "nonsense") = "Bugs" ∧
    categorize (some "  Billing ") = "Billing" :=
  ⟨((categorize_normalizes (some "nonsense")).2.1 "nonsense" rfl).2 (by decide),
   ((categorize_normalizes (some "  Billing ")).2.1 "  Billing " rfl).1 (by decide)⟩

/-- Claim C3: the implemented tier logic agrees with the ordered decision
table of the spec on every (category, sentiment) pair, and in particular
Billing at 0.2 is CRITICAL, Billing at 0.5 is HIGH, Feature Requests at 0.1
is MEDIUM and Feature Requests at 0.9 is LOW. -/
theorem triage_follows_decision_table :
    (∀ (c : String) (s : ℚ), triage c s = specTriage c s) ∧
    triage "Billing" (1/5) = Tier.CRITICAL ∧
    triage "Billing" (1/2) = Tier.HIGH ∧
    triage "Feature Requests" (1/10) = Tier.MEDIUM ∧
    triage "Feature Requests" (9/10) = Tier.LOW := by
  refine ⟨fun c s => ?_, ?_, ?_, ?_, ?_⟩
  · by_cases hb : c = "Bugs" ∨ c = "Billing"
    · by_cases hs : s < 2/5
      · simp [triage, specTriage, hb, hs]
      · simp [triage, specTriage, hb, hs, le_of_not_lt hs]
    · simp [triage, specTriage, hb]
  · norm_num [triage]
  · norm_num [triage]
  · have hne : ¬(("Feature Requests" : String) = "Bugs" ∨
        ("Feature Requests" : String) = "Billing") := by decide
    norm_num [triage, hne]
  · have hne : ¬(("Feature Requests" : String) = "Bugs" ∨
        ("Feature Requests" : String) = "Billing") := by decide
    norm_num [triage, hne]

/-- Claim C6: records categorized Bugs or Billing are always tiered
CRITICAL or HIGH, for every sentiment in the unit interval. -/
theorem operational_never_below_high (c : String) (s : ℚ)
    (hc : c = "Bugs" ∨ c = "Billing") (_h0 : 0 ≤ s) (_h1 : s ≤ 1) :
    triage c s = Tier.CRITICAL ∨ triage c s = Tier.HIGH := by
  by_cases hs : s < 2/5
  · exact Or.inl (by simp [triage, hc, hs])
  · exact Or.inr (by simp [triage, hc, hs])

/-- Witness for C6: Billing with sentiment 0.2 lands in the
CRITICAL-or-HIGH pair. -/
theorem operational_never_below_high_witness :
    triage "Billing" (1/5) = Tier.CRITICAL ∨ triage "Billing" (1/5) = Tier.HIGH :=
  operational_never_below_high "Billing" (1/5) (Or.inr rfl) (by norm_num) (by norm_num)

/-- Claim C7: the total tile counts all rendered records and the critical
incidents tile counts exactly the records with sentiment below 0.3,
independently of their categories; a Bugs record at sentiment 0.35 shows
the 0.3 summary cut and the 0.4 tier cut are genuinely different. -/
theorem dashboard_counters (rs : List Record) (c : String) :
    total rs = rs.length ∧
    urgent rs = rs.countP (fun r => decide (r.sentiment < 3/10)) ∧
    urgent (rs.map (fun r => { r with category := c })) = urgent rs ∧
    triage "Bugs" (7/20) = Tier.CRITICAL ∧
    urgent [{ id := 1, raw_text := "t", category := "Bugs", sentiment := 7/20,
              created_at := "now" }] = 0 := by
  refine ⟨rfl, (List.countP_eq_length_filter _ _).symm, ?_, ?_, ?_⟩
  · simp [urgent, List.filter_map, Function.comp_def]
  · norm_num [triage]
  · norm_num [urgent, List.filter]

/-- Claim C1 counterexample: a response carrying only a NEGATIVE entry with
score 0.9 derives sentiment 0.5, not 1 - 0.9 = 0.1 as the claim states; and
a POSITIVE entry nested under a result wrapper is ignored, deriving 0.5
instead of its score 0.9. -/
theorem sentiment_resolution_counterexample :
    deriveSentiment (SentResponse.list [⟨"NEGATIVE", 9/10⟩]) = 1/2 ∧
    (1 : ℚ) - 9/10 ≠ 1/2 ∧
    deriveSentiment (SentResponse.wrapped [⟨"POSITIVE", 9/10⟩]) = 1/2 ∧
    (9 : ℚ)/10 ≠ 1/2 :=
  ⟨rfl, by norm_num, rfl, by norm_num⟩

/-- Claim C1 amended: only a bare-list response with a POSITIVE entry uses
that (first POSITIVE) entry's score; every other response — NEGATIVE-only
or empty bare lists, and any non-array shape such as the result wrapper —
derives exactly 0.5.  No NEGATIVE inversion happens. -/
theorem sentiment_resolution (es : List LabelScore) :
    (∀ p, es.find? (fun r => r.label == "POSITIVE") = some p →
      deriveSentiment (SentResponse.list es) = p.score ∧
      p.label = "POSITIVE" ∧ p ∈ es) ∧
    (es.find? (fun r => r.label == "POSITIVE") = none →
      deriveSentiment (SentResponse.list es) = 1/2) ∧
    deriveSentiment (SentResponse.wrapped es) = 1/2 := by
  refine ⟨?_, ?_, rfl⟩
  · intro p hf
    refine ⟨by simp [deriveSentiment, hf], ?_, List.mem_of_find?_eq_some hf⟩
    have hl := List.find?_some hf
    simpa using hl
  · intro hf
    simp [deriveSentiment, hf]

/-- Witness for the amended C1: the first POSITIVE entry's score (0 here)
is taken verbatim despite a preceding NEGATIVE entry. -/
theorem sentiment_resolution_witness :
    deriveSentiment (SentResponse.list [⟨"NEGATIVE", 1⟩, ⟨"POSITIVE", 0⟩]) = 0 :=
  ((sentiment_resolution [⟨"NEGATIVE", 1⟩, ⟨"POSITIVE", 0⟩]).1 ⟨"POSITIVE", 0⟩ rfl).1

/-- Claim C4: the record persisted by a completed run carries the
categorize output (a member of the closed set), the derived sentiment
(inside the unit interval whenever the backend scores are), and the
unmodified submission text, and is written as one append of one fully
populated row. -/
theorem persist_record_invariant (classResp : Option String)
    (sentResp : SentResponse) (text : String) (db : List Record) (ts : String)
    (hscores : ∀ e ∈ sentEntries sentResp, 0 ≤ e.score ∧ e.score ≤ 1) :
    (pipelineRun classResp sentResp text).category ∈ valid ∧
    0 ≤ (pipelineRun classResp sentResp text).sentiment ∧
    (pipelineRun classResp sentResp text).sentiment ≤ 1 ∧
    (pipelineRun classResp sentResp text).raw_text = text ∧
    (pipelineRun classResp sentResp text).category = categorize classResp ∧
    (pipelineRun classResp sentResp text).sentiment = deriveSentiment sentResp ∧
    persist db ts (pipelineRun classResp sentResp text) =
      db ++ [{ id := nextId db, raw_text := text,
               category := categorize classResp,
               sentiment := deriveSentiment sentResp, created_at := ts }] := by
  obtain ⟨h0, h1⟩ := deriveSentiment_mem_unit sentResp hscores
  exact ⟨categorize_mem_valid classResp, h0, h1, rfl, rfl, rfl, rfl⟩

/-- Witness for C4 on the end-to-end scenario inputs: classifier answers
Bugs, the backend returns a single POSITIVE entry with an in-range score. -/
theorem persist_record_invariant_witness :
    (pipelineRun (some "Bugs") (SentResponse.list [⟨"POSITIVE", 1⟩])
      "App crashes on login").category ∈ valid ∧
    0 ≤ (pipelineRun (some "Bugs") (SentResponse.list [⟨"POSITIVE", 1⟩])
      "App crashes on login").sentiment := by
  have h := persist_record_invariant (some "Bugs")
    (SentResponse.list [⟨"POSITIVE", 1⟩]) "App crashes on login" [] "ts"
    (by
      rintro e he
      rcases List.mem_singleton.mp he with rfl
      exact ⟨by norm_num, by norm_num⟩)
  exact ⟨h.1, h.2.1⟩

/-- Claim C5 counterexample: the JSON body `null` parses successfully and
has no text field, yet the handler throws a TypeError on the `body.text`
property access (outside the try/catch) instead of answering 400 with the
Missing text error. -/
theorem ingest_null_counterexample :
    ingest (some JSValue.null) = IngestResponse.thrown ∧
    IngestResponse.thrown ≠ IngestResponse.missingText ∧
    IngestResponse.thrown ≠ IngestResponse.invalidJSON :=
  ⟨rfl, by decide, by decide⟩

/-- Claim C5 amended: an unparseable body gets the 400 Invalid JSON
response; a parsed body of JSON `null` makes the handler throw; for any
other parsed body, an absent or non-string or empty-string text field gets
the 400 Missing text response, and a non-empty string text field is
accepted with exactly that text. -/
theorem ingest_validation (parsed : Option JSValue) :
    (parsed = none → ingest parsed = IngestResponse.invalidJSON) ∧
    (parsed = some JSValue.null → ingest parsed = IngestResponse.thrown) ∧
    (∀ b fieldv, parsed = some b → getField b "text" = Except.ok fieldv →
      ((∀ s, fieldv ≠ some (JSValue.str s)) →
        ingest parsed = IngestResponse.missingText) ∧
      (fieldv = some (JSValue.str "") →
        ingest parsed = IngestResponse.missingText) ∧
      (∀ s, s ≠ "" → fieldv = some (JSValue.str s) →
        ingest parsed = IngestResponse.accepted s)) := by
  refine ⟨?_, ?_, ?_⟩
  · rintro rfl; rfl
  · rintro rfl; rfl
  · rintro b fieldv rfl hfield
    refine ⟨?_, ?_, ?_⟩
    · intro hns
      rcases fieldv with _ | v
      · simp [ingest, hfield, jsTruthy]
      · cases v with
        | null => simp [ingest, hfield, jsTruthy]
        | bool b2 => cases b2 <;> simp [ingest, hfield, jsTruthy]
        | num q => by_cases hq : q = 0 <;> simp [ingest, hfield, jsTruthy, hq]
        | str s => exact absurd rfl (hns s)
        | arr xs => simp [ingest, hfield, jsTruthy]
        | obj fs => simp [ingest, hfield, jsTruthy]
    · rintro rfl
      simp [ingest, hfield, jsTruthy]
    · rintro s hs rfl
      simp [ingest, hfield, jsTruthy, hs]

/-- Witness for the amended C5: a well-formed body is accepted with its
text, a body without the field gets the Missing text response. -/
theorem ingest_validation_witness :
    ingest (some (JSValue.obj [("text", JSValue.str "hello")])) =
      IngestResponse.accepted "hello" ∧
    ingest (some (JSValue.obj [])) = IngestResponse.missingText := by
  constructor
  · exact ((ingest_validation (some (JSValue.obj [("text", JSValue.str "hello")]))).2.2
      (JSValue.obj [("text", JSValue.str "hello")]) (some (JSValue.str "hello"))
      rfl rfl).2.2 "hello" (by decide) rfl
  · exact ((ingest_validation (some (JSValue.obj []))).2.2 (JSValue.obj []) none
      rfl rfl).1 (fun s h => Option.noConfusion h)

/-- Claim C8: the tier is a pure function of (category, sentiment) — the
priority and badge rendered in every dashboard row coincide with the tier
recomputed independently by `triage` from the raw record, for single rows
and across a whole rendered dashboard. -/
theorem triage_pure_roundtrip :
    (∀ r : Record,
      (renderRow r).priorityCell = tierLabel (triage r.category r.sentiment) ∧
      (renderRow r).badgeCell = tierBadge (triage r.category r.sentiment)) ∧
    (∀ db : List Record,
      (dashboardGet db).2.rows.map RenderedRow.priorityCell =
        (dashboardQuery db).map (fun r => tierLabel (triage r.category r.sentiment))) := by
  have hrow : ∀ r : Record,
      (renderRow r).priorityCell = tierLabel (triage r.category r.sentiment) ∧
      (renderRow r).badgeCell = tierBadge (triage r.category r.sentiment) := by
    intro r
    simp only [renderRow, triage]
    split_ifs <;> exact ⟨rfl, rfl⟩
  refine ⟨hrow, fun db => ?_⟩
  simp only [dashboardGet, renderDash, List.map_map]
  exact List.map_congr_left fun r _ => (hrow r).1

/-- Claim C9: the dashboard read returns at most 50 records, ordered by id
descending (newest first), drawn from the table, and leaves the table state
unchanged. -/
theorem dashboard_read_only (db : List Record) :
    (dashboardGet db).1 = db ∧
    (dashboardQuery db).length ≤ 50 ∧
    List.Pairwise (fun a b => b.id ≤ a.id) (dashboardQuery db) ∧
    (∀ r, r ∈ dashboardQuery db → r ∈ db) := by
  refine ⟨rfl, List.length_take_le 50 _, ?_, ?_⟩
  · have hs := @List.sorted_mergeSort Record
      (fun a b : Record => decide (b.id ≤ a.id))
      (fun a b c hab hbc => by
        simp only [decide_eq_true_eq] at hab hbc ⊢
        omega)
      (fun a b => by
        simp only [Bool.or_eq_true, decide_eq_true_eq]
        omega)
      db
    have hs2 : List.Pairwise (fun a b : Record => b.id ≤ a.id)
        (db.mergeSort (fun a b => decide (b.id ≤ a.id))) :=
      hs.imp (fun h => by simpa using h)
    exact hs2.sublist (List.take_sublist _ _)
  · intro r hr
    have hm := List.mem_of_mem_take hr
    simpa using hm

/-- Witness for C9: on a one-row table the selected row indeed comes from
the table. -/
theorem dashboard_read_only_witness :
    ({ id := 1, raw_text := "t", category := "Bugs", sentiment := 1/2,
       created_at := "ts" } : Record) ∈
      [({ id := 1, raw_text := "t", category := "Bugs", sentiment := 1/2,
          created_at := "ts" } : Record)] :=
  (dashboard_read_only _).2.2.2 _ (by simp [dashboardQuery])

/-- Helper: a single-character global replace distributes over list
concatenation. -/
theorem replaceChar_append (t : Char) (rep : List Char) (xs ys : List Char) :
    replaceChar t rep (xs ++ ys) =
      replaceChar t rep xs ++ replaceChar t rep ys := by
  induction xs with
  | nil => rfl
  | cons c cs ih => simp [replaceChar, ih]

/-- Helper: the four chained replacements act on every character
independently. -/
theorem escList_cons (c : Char) (s : List Char) :
    escList (c :: s) = escChar c ++ escList s := by
  have hsplit : escList ([c] ++ s) = escList [c] ++ escList s := by
    simp only [escList, replaceChar_append]
  rw [show c :: s = [c] ++ s from rfl, hsplit]
  congr 1
  by_cases h1 : c = '&'
  · subst h1; rfl
  by_cases h2 : c = '<'
  · subst h2; rfl
  by_cases h3 : c = '>'
  · subst h3; rfl
  by_cases h4 : c = '"'
  · subst h4; rfl
  simp [escList, replaceChar, escChar, h1, h2, h3, h4]

/-- Helper: prepending one escaped character preserves well-escapedness. -/
theorem wellEscaped_escChar_append (c : Char) (t : List Char)
    (h : wellEscaped t = true) : wellEscaped (escChar c ++ t) = true := by
  by_cases h1 : c = '&'
  · subst h1
    rw [show escChar '&' ++ t = '&' :: 'a' :: 'm' :: 'p' :: ';' :: t from rfl,
      wellEscaped.eq_def]
    simpa using h
  by_cases h2 : c = '<'
  · subst h2
    rw [show escChar '<' ++ t = '&' :: 'l' :: 't' :: ';' :: t from rfl,
      wellEscaped.eq_def]
    simpa using h
  by_cases h3 : c = '>'
  · subst h3
    rw [show escChar '>' ++ t = '&' :: 'g' :: 't' :: ';' :: t from rfl,
      wellEscaped.eq_def]
    simpa using h
  by_cases h4 : c = '"'
  · subst h4
    rw [show escChar '"' ++ t = '&' :: 'q' :: 'u' :: 'o' :: 't' :: ';' :: t from rfl,
      wellEscaped.eq_def]
    simpa using h
  have hc : escChar c ++ t = c :: t := by simp [escChar, h1, h2, h3, h4]
  rw [hc, wellEscaped.eq_def]
  simp [h1, h2, h3, h4, h]

/-- Helper: the full escaped output is well-escaped. -/
theorem wellEscaped_escList (s : List Char) : wellEscaped (escList s) = true := by
  induction s with
  | nil => rfl
  | cons c cs ih => rw [escList_cons]; exact wellEscaped_escChar_append c _ ih

/-- Helper: no raw angle bracket or double quote survives escaping. -/
theorem escList_no_specials (s : List Char) :
    (escList s).all (fun c => !(c = '<' || c = '>' || c = '"')) = true := by
  induction s with
  | nil => rfl
  | cons c cs ih =>
    have hhead : (escChar c).all (fun c => !(c = '<' || c = '>' || c = '"')) = true := by
      by_cases h1 : c = '&'
      · subst h1; rfl
      by_cases h2 : c = '<'
      · subst h2; rfl
      by_cases h3 : c = '>'
      · subst h3; rfl
      by_cases h4 : c = '"'
      · subst h4; rfl
      simp [escChar, h1, h2, h3, h4]
    rw [escList_cons, List.all_append, hhead, ih]; rfl

/-- Claim C10: for every string, the escaped output contains no raw `<`,
`>` or `"`, every `&` in it starts one of the four emitted entities (this
is what `wellEscaped` checks), the empty (falsy) string maps to the empty
string, and the dashboard row cells for raw_text, category and created_at
are exactly the esc image of the record fields. -/
theorem esc_output_safe (s : String) :
    wellEscaped (esc s).data = true ∧
    (esc s).data.all (fun c => !(c = '<' || c = '>' || c = '"')) = true ∧
    esc "" = "" ∧
    (∀ r : Record,
      (renderRow r).textCell = esc r.raw_text ∧
      (renderRow r).categoryCell = esc r.category ∧
      (renderRow r).timeCell = esc r.created_at) := by
  refine ⟨?_, ?_, rfl, ?_⟩
  · by_cases h : s = ""
    · subst h; rfl
    · simp only [esc, if_neg h]
      exact wellEscaped_escList s.data
  · by_cases h : s = ""
    · subst h; rfl
    · simp only [esc, if_neg h]
      exact escList_no_specials s.data
  · intro r
    simp only [renderRow]
    split_ifs <;> exact ⟨rfl, rfl, rfl⟩

end PulsePoint
